import Mathlib

/-!
Verification of the entity-creation client in
`archive/orchestrator-experiments-2025-12/entities.rs`.

The file contains two stateless HTTP client operations,
`create_location_group` and `create_schedule_group`.  Each builds a JSON
payload, builds four request headers from a caller-supplied token, issues a
single POST request, and extracts one integer identifier from the JSON
response body.

Shallow embedding choices:
* JSON values (the `serde_json::Value` type restricted to what the code
  manipulates) are the inductive `Json`; numbers are modelled as `Int`,
  matching the `i64` identifiers the code reads and writes.
* The network is external to the repository, so the transport is an explicit
  parameter `send : HttpRequestRec → Except String HttpResponseRec`.  A
  transport error models a failed `send().await`; a response carries the
  numeric status, the outcome of reading the body as text, and the outcome
  of parsing the body as JSON, which are the only three observations the
  code makes of a response.
* `reqwest::header::HeaderValue::from_str` validates every UTF-8 byte of
  the string with the byte test of the http crate implementation: a byte is
  accepted when it is at least 32 and not 127, or is the horizontal tab.
  In particular the opaque octets 128 to 255 are accepted, so non-ASCII
  strings are valid header values.  A one-byte character is its own code
  point, and every byte of a multi-byte UTF-8 character lies between 128
  and 255, hence is at least 32 and not 127; the byte test is therefore
  equivalent to the per-character test `isValidHeaderChar` used below.  The
  error value displays as the fixed text "failed to parse header value".
* The numeric status is rendered with `toString`; the Display of the status
  in the source also appends a canonical reason phrase, which no property
  below depends on.
-/

/-- JSON values, as manipulated by the code under verification. -/
inductive Json : Type where
  | null : Json
  | bool : Bool → Json
  | int : Int → Json
  | str : String → Json
  | arr : List Json → Json
  | obj : List (String × Json) → Json

/-- `Value::get(key)`: field lookup on a JSON object, `none` on any other
JSON value or when the key is absent. -/
def Json.get : Json → String → Option Json
  | Json.obj fields, key => List.lookup key fields
  | _, _ => none

/-- `Value::as_i64()`: the integer content of a JSON number, `none` on any
other JSON value. -/
def Json.asI64 : Json → Option Int
  | Json.int n => some n
  | _ => none

/-- A character all of whose UTF-8 bytes pass the header value byte test of
the http crate: at least 32 and not 127, or the horizontal tab.  For a
character below 128 the single byte is the code point itself; every byte of
a multi-byte character lies between 128 and 255 and so always passes, which
the code point test below reproduces. -/
def isValidHeaderChar (c : Char) : Bool :=
  c.val == 9 || (32 ≤ c.val && c.val != 127)

/-- Whether a string is accepted as an HTTP header value: every UTF-8 byte
passes the byte test, equivalently every character does. -/
def validHeaderValue (s : String) : Bool :=
  s.data.all isValidHeaderChar

/-- `HeaderValue::from_str`: the string itself on success, the library error
text on failure. -/
def headerValueFromStr (s : String) : Except String String :=
  if validHeaderValue s then Except.ok s
  else Except.error "failed to parse header value"

/-- `LocationGroupRequest` struct. -/
structure LocationGroupRequest : Type where
  description : String
  location_ids : List Int

/-- `LocationGroupResponse` struct. -/
structure LocationGroupResponse : Type where
  location_group_id : Int

/-- `ScheduleGroupRequest` struct. -/
structure ScheduleGroupRequest : Type where
  description : String
  location_group_id : Int
  start_date : String
  end_date : String
  learning_period : String

/-- `ScheduleGroupResponse` struct. -/
structure ScheduleGroupResponse : Type where
  schedule_group_id : Int

/-- The request as handed to the HTTP client: URL, header list in insertion
order, JSON payload. -/
structure HttpRequestRec : Type where
  url : String
  headers : List (String × String)
  payload : Json

/-- An HTTP response as observed by the code: numeric status, the outcome of
reading the body as text, and the outcome of parsing the body as JSON. -/
structure HttpResponseRec : Type where
  status : Nat
  textResult : Option String
  jsonResult : Except String Json

/-- `StatusCode::is_success()`: status in the 2xx range. -/
def isSuccessStatus (status : Nat) : Bool :=
  200 ≤ status && status < 300

/-- The `locations` array built by `create_location_group`: each id wrapped
into an object with single field `LocationID`. -/
def locationsArray (location_ids : List Int) : List Json :=
  location_ids.map (fun id => Json.obj [("LocationID", Json.int id)])

/-- The payload built by `create_location_group`. -/
def locationGroupPayload (request : LocationGroupRequest) : Json :=
  Json.obj
    [("Description", Json.str request.description),
     ("Active", Json.bool true),
     ("Locations", Json.arr (locationsArray request.location_ids))]

/-- The `adhoc_fields` array built by `create_schedule_group`. -/
def adhocFields (request : ScheduleGroupRequest) : Json :=
  Json.arr
    [Json.obj
      [("FieldName", Json.str "adhoc_LearningPeriod"),
       ("Value", Json.str request.learning_period)]]

/-- The payload built by `create_schedule_group`. -/
def scheduleGroupPayload (request : ScheduleGroupRequest) : Json :=
  Json.obj
    [("Description", Json.str request.description),
     ("Active", Json.bool true),
     ("LocationGroupID", Json.int request.location_group_id),
     ("GroupStartDate", Json.str request.start_date),
     ("GroupEndDate", Json.str request.end_date),
     ("AdhocFields", adhocFields request)]

/-- The header construction shared verbatim by both operations: insert
`AuthenticationToken` and `Authorization` built from the token with the
source error messages on failure, then the two static headers. -/
def buildHeaders (token : String) : Except String (List (String × String)) :=
  match headerValueFromStr token with
  | Except.error e => Except.error ("Invalid token header: " ++ e)
  | Except.ok h1 =>
    match headerValueFromStr ("Bearer " ++ token) with
    | Except.error e => Except.error ("Invalid authorization header: " ++ e)
    | Except.ok h2 =>
      Except.ok
        [("AuthenticationToken", h1),
         ("Authorization", h2),
         ("Accept", "application/json"),
         ("Content-Type", "application/json")]

/-- `create_location_group`: build payload and headers, POST once, check the
status, parse the body, extract `LocationGroupID`. -/
def create_location_group (base_url token : String)
    (request : LocationGroupRequest)
    (send : HttpRequestRec → Except String HttpResponseRec) :
    Except String LocationGroupResponse :=
  match buildHeaders token with
  | Except.error e => Except.error e
  | Except.ok headers =>
    match send
        { url := base_url ++ "/RESTApi/LocationGroup",
          headers := headers,
          payload := locationGroupPayload request } with
    | Except.error e =>
      Except.error ("Failed to create location group: " ++ e)
    | Except.ok response =>
      if isSuccessStatus response.status then
        match response.jsonResult with
        | Except.error e => Except.error ("Failed to parse response: " ++ e)
        | Except.ok response_body =>
          match (response_body.get "LocationGroupID").bind Json.asI64 with
          | none => Except.error "LocationGroupID not found in response"
          | some location_group_id =>
            Except.ok { location_group_id := location_group_id }
      else
        Except.error ("API error (" ++ toString response.status ++ "): "
          ++ response.textResult.getD "Unknown error")

/-- `create_schedule_group`: build payload and headers, POST once, check the
status, parse the body, extract `ScheduleGroupID`. -/
def create_schedule_group (base_url token : String)
    (request : ScheduleGroupRequest)
    (send : HttpRequestRec → Except String HttpResponseRec) :
    Except String ScheduleGroupResponse :=
  match buildHeaders token with
  | Except.error e => Except.error e
  | Except.ok headers =>
    match send
        { url := base_url ++ "/RESTApi/ScheduleGroup",
          headers := headers,
          payload := scheduleGroupPayload request } with
    | Except.error e =>
      Except.error ("Failed to create schedule group: " ++ e)
    | Except.ok response =>
      if isSuccessStatus response.status then
        match response.jsonResult with
        | Except.error e => Except.error ("Failed to parse response: " ++ e)
        | Except.ok response_body =>
          match (response_body.get "ScheduleGroupID").bind Json.asI64 with
          | none => Except.error "ScheduleGroupID not found in response"
          | some schedule_group_id =>
            Except.ok { schedule_group_id := schedule_group_id }
      else
        Except.error ("API error (" ++ toString response.status ++ "): "
          ++ response.textResult.getD "Unknown error")

/-- The same translation of `create_location_group`, instrumented to also
return the list of network requests issued during the invocation. -/
def create_location_group_trace (base_url token : String)
    (request : LocationGroupRequest)
    (send : HttpRequestRec → Except String HttpResponseRec) :
    Except String LocationGroupResponse × List HttpRequestRec :=
  match buildHeaders token with
  | Except.error e => (Except.error e, [])
  | Except.ok headers =>
    let req : HttpRequestRec :=
      { url := base_url ++ "/RESTApi/LocationGroup",
        headers := headers,
        payload := locationGroupPayload request }
    match send req with
    | Except.error e =>
      (Except.error ("Failed to create location group: " ++ e), [req])
    | Except.ok response =>
      if isSuccessStatus response.status then
        match response.jsonResult with
        | Except.error e =>
          (Except.error ("Failed to parse response: " ++ e), [req])
        | Except.ok response_body =>
          match (response_body.get "LocationGroupID").bind Json.asI64 with
          | none =>
            (Except.error "LocationGroupID not found in response", [req])
          | some location_group_id =>
            (Except.ok { location_group_id := location_group_id }, [req])
      else
        (Except.error ("API error (" ++ toString response.status ++ "): "
          ++ response.textResult.getD "Unknown error"), [req])

/-- The same translation of `create_schedule_group`, instrumented to also
return the list of network requests issued during the invocation. -/
def create_schedule_group_trace (base_url token : String)
    (request : ScheduleGroupRequest)
    (send : HttpRequestRec → Except String HttpResponseRec) :
    Except String ScheduleGroupResponse × List HttpRequestRec :=
  match buildHeaders token with
  | Except.error e => (Except.error e, [])
  | Except.ok headers =>
    let req : HttpRequestRec :=
      { url := base_url ++ "/RESTApi/ScheduleGroup",
        headers := headers,
        payload := scheduleGroupPayload request }
    match send req with
    | Except.error e =>
      (Except.error ("Failed to create schedule group: " ++ e), [req])
    | Except.ok response =>
      if isSuccessStatus response.status then
        match response.jsonResult with
        | Except.error e =>
          (Except.error ("Failed to parse response: " ++ e), [req])
        | Except.ok response_body =>
          match (response_body.get "ScheduleGroupID").bind Json.asI64 with
          | none =>
            (Except.error "ScheduleGroupID not found in response", [req])
          | some schedule_group_id =>
            (Except.ok { schedule_group_id := schedule_group_id }, [req])
      else
        (Except.error ("API error (" ++ toString response.status ++ "): "
          ++ response.textResult.getD "Unknown error"), [req])

/-- The serde serialization of `LocationGroupRequest` derived from the
struct: snake_case field names, ids as JSON numbers. -/
def LocationGroupRequest.toJson (r : LocationGroupRequest) : Json :=
  Json.obj
    [("description", Json.str r.description),
     ("location_ids", Json.arr (r.location_ids.map Json.int))]

/-- Elementwise decoding of a JSON array of integers, as the derived
deserializer does for `Vec` of `i64`. -/
def decodeIntList : List Json → Option (List Int)
  | [] => some []
  | j :: rest =>
    match j.asI64, decodeIntList rest with
    | some n, some ns => some (n :: ns)
    | _, _ => none

/-- The serde deserialization of `LocationGroupRequest` derived from the
struct: both fields required, with their declared types. -/
def LocationGroupRequest.fromJson (j : Json) : Option LocationGroupRequest :=
  match j.get "description", j.get "location_ids" with
  | some (Json.str d), some (Json.arr l) =>
    (decodeIntList l).map (fun ids => { description := d, location_ids := ids })
  | _, _ => none

/-- String containment, used to state properties of error messages. -/
def strContains (s sub : String) : Prop :=
  ∃ l r, l ++ sub ++ r = s

/-- C1: for every base_url, token, request and transport, the operation
returns `ok` with identifier `n` if and only if the headers were built, the
transport returned a response whose status is in the 2xx range, whose body
parsed as JSON, and whose JSON carries the expected integer identifier
field with value `n`; every other outcome is an error.  Stated for both
`create_location_group` (field `LocationGroupID`) and
`create_schedule_group` (field `ScheduleGroupID`). -/
theorem claim_c1_ok_iff_response_success
    (base_url token : String) (lreq : LocationGroupRequest)
    (sreq : ScheduleGroupRequest)
    (send : HttpRequestRec → Except String HttpResponseRec) (n : Int) :
    (create_location_group base_url token lreq send
        = Except.ok { location_group_id := n } ↔
      ∃ headers, buildHeaders token = Except.ok headers ∧
      ∃ resp,
        send { url := base_url ++ "/RESTApi/LocationGroup",
               headers := headers,
               payload := locationGroupPayload lreq } = Except.ok resp ∧
        isSuccessStatus resp.status = true ∧
        ∃ body, resp.jsonResult = Except.ok body ∧
          (body.get "LocationGroupID").bind Json.asI64 = some n) ∧
    (create_schedule_group base_url token sreq send
        = Except.ok { schedule_group_id := n } ↔
      ∃ headers, buildHeaders token = Except.ok headers ∧
      ∃ resp,
        send { url := base_url ++ "/RESTApi/ScheduleGroup",
               headers := headers,
               payload := scheduleGroupPayload sreq } = Except.ok resp ∧
        isSuccessStatus resp.status = true ∧
        ∃ body, resp.jsonResult = Except.ok body ∧
          (body.get "ScheduleGroupID").bind Json.asI64 = some n) := by
  constructor
  · unfold create_location_group
    cases hb : buildHeaders token with
    | error e => simp
    | ok headers =>
      cases hs : send { url := base_url ++ "/RESTApi/LocationGroup",
                        headers := headers,
                        payload := locationGroupPayload lreq } with
      | error e => simp [hs]
      | ok resp =>
        cases hst : isSuccessStatus resp.status with
        | false => simp [hs, hst]
        | true =>
          cases hj : resp.jsonResult with
          | error e => simp [hs, hst, hj]
          | ok body =>
            cases hf : (body.get "LocationGroupID").bind Json.asI64 with
            | none => simp [hs, hst, hj, hf]
            | some m => simp [hs, hst, hj, hf, LocationGroupResponse.mk.injEq]
  · unfold create_schedule_group
    cases hb : buildHeaders token with
    | error e => simp
    | ok headers =>
      cases hs : send { url := base_url ++ "/RESTApi/ScheduleGroup",
                        headers := headers,
                        payload := scheduleGroupPayload sreq } with
      | error e => simp [hs]
      | ok resp =>
        cases hst : isSuccessStatus resp.status with
        | false => simp [hs, hst]
        | true =>
          cases hj : resp.jsonResult with
          | error e => simp [hs, hst, hj]
          | ok body =>
            cases hf : (body.get "ScheduleGroupID").bind Json.asI64 with
            | none => simp [hs, hst, hj, hf]
            | some m => simp [hs, hst, hj, hf, ScheduleGroupResponse.mk.injEq]

/-- For a token accepted as a header value, the derived `Bearer` value is
accepted as well, since the added leading characters are all visible ASCII. -/
theorem validHeaderValue_bearer (token : String)
    (h : validHeaderValue token = true) :
    validHeaderValue ("Bearer " ++ token) = true := by
  unfold validHeaderValue at h ⊢
  rw [String.data_append, List.all_append, h]
  simp
  decide

/-- Header construction succeeds on a valid token and yields exactly the four
headers of the source, in insertion order. -/
theorem buildHeaders_ok (token : String)
    (h : validHeaderValue token = true) :
    buildHeaders token =
      Except.ok
        [("AuthenticationToken", token),
         ("Authorization", "Bearer " ++ token),
         ("Accept", "application/json"),
         ("Content-Type", "application/json")] := by
  simp [buildHeaders, headerValueFromStr, h, validHeaderValue_bearer token h]

/-- Header construction fails with the source token error message on an
invalid token. -/
theorem buildHeaders_err (token : String)
    (h : validHeaderValue token = false) :
    buildHeaders token =
      Except.error "Invalid token header: failed to parse header value" := by
  simp [buildHeaders, headerValueFromStr, h]

/-- C2: the payload built by `create_location_group` is exactly the object
with fields `Description`, `Active` (true) and `Locations`, where the
`Locations` array has one element per input id, the i-th element being the
object with single field `LocationID` carrying the i-th id, in input
order. -/
theorem claim_c2_locations_array_shape (request : LocationGroupRequest) :
    locationGroupPayload request =
      Json.obj
        [("Description", Json.str request.description),
         ("Active", Json.bool true),
         ("Locations", Json.arr (locationsArray request.location_ids))] ∧
    (locationsArray request.location_ids).length
        = request.location_ids.length ∧
    ∀ i : Nat, i < request.location_ids.length →
      ∃ id : Int, request.location_ids[i]? = some id ∧
        (locationsArray request.location_ids)[i]?
          = some (Json.obj [("LocationID", Json.int id)]) := by
  refine ⟨rfl, by simp [locationsArray], ?_⟩
  intro i h
  refine ⟨request.location_ids[i], List.getElem?_eq_getElem h, ?_⟩
  simp [locationsArray, List.getElem?_eq_getElem h]

/-- Witness for C2 at a concrete request with two location ids. -/
theorem claim_c2_locations_array_shape_witness :
    1 < ([5, 7] : List Int).length ∧
    ∃ id : Int, ([5, 7] : List Int)[1]? = some id ∧
      (locationsArray [5, 7])[1]? = some (Json.obj [("LocationID", Json.int id)]) :=
  ⟨by decide,
    (claim_c2_locations_array_shape
      { description := "d", location_ids := [5, 7] }).2.2 1 (by decide)⟩

/-- C3: the payload built by `create_schedule_group` is exactly the object
with fields `Description`, `Active` (true), `LocationGroupID`,
`GroupStartDate` and `GroupEndDate` forwarded as-is without validation, and
`AdhocFields` containing exactly one entry whose `FieldName` is the literal
`adhoc_LearningPeriod` and whose `Value` is the supplied learning_period
text, whatever that text is; and this exact payload is what the operation
hands to the transport. -/
theorem claim_c3_schedule_payload_shape (request : ScheduleGroupRequest)
    (token : String) (htok : validHeaderValue token = true) :
    scheduleGroupPayload request =
      Json.obj
        [("Description", Json.str request.description),
         ("Active", Json.bool true),
         ("LocationGroupID", Json.int request.location_group_id),
         ("GroupStartDate", Json.str request.start_date),
         ("GroupEndDate", Json.str request.end_date),
         ("AdhocFields",
          Json.arr
            [Json.obj
              [("FieldName", Json.str "adhoc_LearningPeriod"),
               ("Value", Json.str request.learning_period)]])] ∧
    ∀ (base_url : String) (g : HttpRequestRec → String),
      create_schedule_group base_url token request
          (fun q => Except.error (g q)) =
        Except.error ("Failed to create schedule group: " ++
          g { url := base_url ++ "/RESTApi/ScheduleGroup",
              headers :=
                [("AuthenticationToken", token),
                 ("Authorization", "Bearer " ++ token),
                 ("Accept", "application/json"),
                 ("Content-Type", "application/json")],
              payload := scheduleGroupPayload request }) := by
  refine ⟨rfl, ?_⟩
  intro base_url g
  unfold create_schedule_group
  rw [buildHeaders_ok token htok]

/-- Witness for C3 at a concrete request and token. -/
theorem claim_c3_schedule_payload_shape_witness :
    validHeaderValue "t" = true ∧
    scheduleGroupPayload
        { description := "d", location_group_id := 42,
          start_date := "2025-01-01", end_date := "2025-12-31",
          learning_period := "30" } =
      Json.obj
        [("Description", Json.str "d"),
         ("Active", Json.bool true),
         ("LocationGroupID", Json.int 42),
         ("GroupStartDate", Json.str "2025-01-01"),
         ("GroupEndDate", Json.str "2025-12-31"),
         ("AdhocFields",
          Json.arr
            [Json.obj
              [("FieldName", Json.str "adhoc_LearningPeriod"),
               ("Value", Json.str "30")]])] ∧
    create_schedule_group "u" "t"
        { description := "d", location_group_id := 42,
          start_date := "2025-01-01", end_date := "2025-12-31",
          learning_period := "30" }
        (fun q => Except.error ((fun _ => "q") q)) =
      Except.error ("Failed to create schedule group: " ++ "q") :=
  ⟨by decide,
    (claim_c3_schedule_payload_shape
      { description := "d", location_group_id := 42,
        start_date := "2025-01-01", end_date := "2025-12-31",
        learning_period := "30" } "t" (by decide)).1,
    (claim_c3_schedule_payload_shape
      { description := "d", location_group_id := 42,
        start_date := "2025-01-01", end_date := "2025-12-31",
        learning_period := "30" } "t" (by decide)).2 "u" (fun _ => "q")⟩

/-- C4: when the token text is not a valid HTTP header value, both
operations fail with the header-construction error message, uniformly in
the transport (so independently of any network behaviour), and the
instrumented translations record that no network request is issued. -/
theorem claim_c4_invalid_token_fails_before_send (token : String)
    (htok : validHeaderValue token = false) :
    ∀ (base_url : String) (lreq : LocationGroupRequest)
      (sreq : ScheduleGroupRequest)
      (send : HttpRequestRec → Except String HttpResponseRec),
    create_location_group base_url token lreq send =
        Except.error "Invalid token header: failed to parse header value" ∧
    (create_location_group_trace base_url token lreq send).2 = [] ∧
    create_schedule_group base_url token sreq send =
        Except.error "Invalid token header: failed to parse header value" ∧
    (create_schedule_group_trace base_url token sreq send).2 = [] := by
  intro base_url lreq sreq send
  have hb := buildHeaders_err token htok
  refine ⟨?_, ?_, ?_, ?_⟩
  · unfold create_location_group
    rw [hb]
  · unfold create_location_group_trace
    rw [hb]
  · unfold create_schedule_group
    rw [hb]
  · unfold create_schedule_group_trace
    rw [hb]

/-- Witness for C4 at a token containing a line feed. -/
theorem claim_c4_invalid_token_fails_before_send_witness :
    validHeaderValue "\n" = false ∧
    create_location_group "u" "\n" { description := "d", location_ids := [1] }
        (fun _ => Except.error "x") =
      Except.error "Invalid token header: failed to parse header value" ∧
    (create_location_group_trace "u" "\n"
        { description := "d", location_ids := [1] }
        (fun _ => Except.error "x")).2 = [] ∧
    create_schedule_group "u" "\n"
        { description := "d", location_group_id := 1, start_date := "s",
          end_date := "e", learning_period := "p" }
        (fun _ => Except.error "x") =
      Except.error "Invalid token header: failed to parse header value" ∧
    (create_schedule_group_trace "u" "\n"
        { description := "d", location_group_id := 1, start_date := "s",
          end_date := "e", learning_period := "p" }
        (fun _ => Except.error "x")).2 = [] :=
  ⟨by decide,
    claim_c4_invalid_token_fails_before_send "\n" (by decide) "u"
      { description := "d", location_ids := [1] }
      { description := "d", location_group_id := 1, start_date := "s",
        end_date := "e", learning_period := "p" }
      (fun _ => Except.error "x")⟩

/-- C5: on a response whose status is outside the 2xx range, each operation
fails with a message containing the numeric status and the raw body text,
with the placeholder text used when the body cannot be read. -/
theorem claim_c5_non_success_status_message :
    (∀ (base_url token : String) (lreq : LocationGroupRequest)
       (send : HttpRequestRec → Except String HttpResponseRec)
       (headers : List (String × String)) (resp : HttpResponseRec),
      buildHeaders token = Except.ok headers →
      send { url := base_url ++ "/RESTApi/LocationGroup",
             headers := headers,
             payload := locationGroupPayload lreq } = Except.ok resp →
      isSuccessStatus resp.status = false →
      ∃ msg, create_location_group base_url token lreq send
          = Except.error msg ∧
        strContains msg (toString resp.status) ∧
        (∀ body, resp.textResult = some body → strContains msg body) ∧
        (resp.textResult = none → strContains msg "Unknown error")) ∧
    (∀ (base_url token : String) (sreq : ScheduleGroupRequest)
       (send : HttpRequestRec → Except String HttpResponseRec)
       (headers : List (String × String)) (resp : HttpResponseRec),
      buildHeaders token = Except.ok headers →
      send { url := base_url ++ "/RESTApi/ScheduleGroup",
             headers := headers,
             payload := scheduleGroupPayload sreq } = Except.ok resp →
      isSuccessStatus resp.status = false →
      ∃ msg, create_schedule_group base_url token sreq send
          = Except.error msg ∧
        strContains msg (toString resp.status) ∧
        (∀ body, resp.textResult = some body → strContains msg body) ∧
        (resp.textResult = none → strContains msg "Unknown error")) := by
  constructor
  · intro base_url token lreq send headers resp hh hs hst
    refine ⟨"API error (" ++ toString resp.status ++ "): "
        ++ resp.textResult.getD "Unknown error", ?_, ?_, ?_, ?_⟩
    · simp [create_location_group, hh, hs, hst]
    · exact ⟨"API error (",
        "): " ++ resp.textResult.getD "Unknown error",
        by simp [String.append_assoc]⟩
    · intro body hbody
      refine ⟨"API error (" ++ toString resp.status ++ "): ", "", ?_⟩
      simp [hbody, String.append_assoc]
    · intro hnone
      refine ⟨"API error (" ++ toString resp.status ++ "): ", "", ?_⟩
      simp [hnone, String.append_assoc]
  · intro base_url token sreq send headers resp hh hs hst
    refine ⟨"API error (" ++ toString resp.status ++ "): "
        ++ resp.textResult.getD "Unknown error", ?_, ?_, ?_, ?_⟩
    · simp [create_schedule_group, hh, hs, hst]
    · exact ⟨"API error (",
        "): " ++ resp.textResult.getD "Unknown error",
        by simp [String.append_assoc]⟩
    · intro body hbody
      refine ⟨"API error (" ++ toString resp.status ++ "): ", "", ?_⟩
      simp [hbody, String.append_assoc]
    · intro hnone
      refine ⟨"API error (" ++ toString resp.status ++ "): ", "", ?_⟩
      simp [hnone, String.append_assoc]

/-- Witness for C5: status 404 with body text `not found`. -/
theorem claim_c5_non_success_status_message_witness :
    ∃ msg, create_location_group "u" "t"
        { description := "d", location_ids := [1] }
        (fun _ => Except.ok
          { status := 404, textResult := some "not found",
            jsonResult := Except.error "x" }) = Except.error msg ∧
      strContains msg (toString (404 : Nat)) ∧
      (∀ body, (some "not found" : Option String) = some body →
        strContains msg body) ∧
      ((some "not found" : Option String) = none →
        strContains msg "Unknown error") :=
  claim_c5_non_success_status_message.1 "u" "t"
    { description := "d", location_ids := [1] }
    (fun _ => Except.ok
      { status := 404, textResult := some "not found",
        jsonResult := Except.error "x" })
    [("AuthenticationToken", "t"), ("Authorization", "Bearer " ++ "t"),
     ("Accept", "application/json"), ("Content-Type", "application/json")]
    { status := 404, textResult := some "not found",
      jsonResult := Except.error "x" }
    (buildHeaders_ok "t" (by decide)) rfl (by decide)

/-- C6: on a 2xx response whose body is valid JSON but lacks the expected
identifier field, or holds it with a non-integer value, each operation fails
with the message that the field was not found in the response, a message
containing the field name. -/
theorem claim_c6_missing_field_message :
    (∀ (base_url token : String) (lreq : LocationGroupRequest)
       (send : HttpRequestRec → Except String HttpResponseRec)
       (headers : List (String × String)) (resp : HttpResponseRec)
       (body : Json),
      buildHeaders token = Except.ok headers →
      send { url := base_url ++ "/RESTApi/LocationGroup",
             headers := headers,
             payload := locationGroupPayload lreq } = Except.ok resp →
      isSuccessStatus resp.status = true →
      resp.jsonResult = Except.ok body →
      (body.get "LocationGroupID").bind Json.asI64 = none →
      create_location_group base_url token lreq send
          = Except.error "LocationGroupID not found in response" ∧
        strContains "LocationGroupID not found in response"
          "LocationGroupID") ∧
    (∀ (base_url token : String) (sreq : ScheduleGroupRequest)
       (send : HttpRequestRec → Except String HttpResponseRec)
       (headers : List (String × String)) (resp : HttpResponseRec)
       (body : Json),
      buildHeaders token = Except.ok headers →
      send { url := base_url ++ "/RESTApi/ScheduleGroup",
             headers := headers,
             payload := scheduleGroupPayload sreq } = Except.ok resp →
      isSuccessStatus resp.status = true →
      resp.jsonResult = Except.ok body →
      (body.get "ScheduleGroupID").bind Json.asI64 = none →
      create_schedule_group base_url token sreq send
          = Except.error "ScheduleGroupID not found in response" ∧
        strContains "ScheduleGroupID not found in response"
          "ScheduleGroupID") := by
  constructor
  · intro base_url token lreq send headers resp body hh hs hst hj hf
    refine ⟨?_, "", " not found in response", by decide⟩
    simp [create_location_group, hh, hs, hst, hj, hf]
  · intro base_url token sreq send headers resp body hh hs hst hj hf
    refine ⟨?_, "", " not found in response", by decide⟩
    simp [create_schedule_group, hh, hs, hst, hj, hf]

/-- Witness for C6: HTTP 200 with body the empty JSON object. -/
theorem claim_c6_missing_field_message_witness :
    create_location_group "u" "t" { description := "d", location_ids := [1] }
        (fun _ => Except.ok
          { status := 200, textResult := some "\x7b\x7d",
            jsonResult := Except.ok (Json.obj []) }) =
      Except.error "LocationGroupID not found in response" ∧
    strContains "LocationGroupID not found in response" "LocationGroupID" :=
  claim_c6_missing_field_message.1 "u" "t"
    { description := "d", location_ids := [1] }
    (fun _ => Except.ok
      { status := 200, textResult := some "\x7b\x7d",
        jsonResult := Except.ok (Json.obj []) })
    [("AuthenticationToken", "t"), ("Authorization", "Bearer " ++ "t"),
     ("Accept", "application/json"), ("Content-Type", "application/json")]
    { status := 200, textResult := some "\x7b\x7d",
      jsonResult := Except.ok (Json.obj []) }
    (Json.obj [])
    (buildHeaders_ok "t" (by decide)) rfl (by decide) rfl (by decide)

/-- C7: for a valid token the header set is a pure function of the token
alone, consisting of exactly the four headers `AuthenticationToken` (the
token unchanged), `Authorization` (the token preceded by the text `Bearer `),
`Accept` and `Content-Type` (both `application/json`), and both operations
hand this same header set to the transport. -/
theorem claim_c7_header_set_pure (token : String)
    (htok : validHeaderValue token = true) :
    buildHeaders token =
      Except.ok
        [("AuthenticationToken", token),
         ("Authorization", "Bearer " ++ token),
         ("Accept", "application/json"),
         ("Content-Type", "application/json")] ∧
    ∀ (base_url : String) (lreq : LocationGroupRequest)
      (sreq : ScheduleGroupRequest) (g : HttpRequestRec → String),
      create_location_group base_url token lreq
          (fun q => Except.error (g q)) =
        Except.error ("Failed to create location group: " ++
          g { url := base_url ++ "/RESTApi/LocationGroup",
              headers :=
                [("AuthenticationToken", token),
                 ("Authorization", "Bearer " ++ token),
                 ("Accept", "application/json"),
                 ("Content-Type", "application/json")],
              payload := locationGroupPayload lreq }) ∧
      create_schedule_group base_url token sreq
          (fun q => Except.error (g q)) =
        Except.error ("Failed to create schedule group: " ++
          g { url := base_url ++ "/RESTApi/ScheduleGroup",
              headers :=
                [("AuthenticationToken", token),
                 ("Authorization", "Bearer " ++ token),
                 ("Accept", "application/json"),
                 ("Content-Type", "application/json")],
              payload := scheduleGroupPayload sreq }) := by
  refine ⟨buildHeaders_ok token htok, ?_⟩
  intro base_url lreq sreq g
  constructor
  · unfold create_location_group
    rw [buildHeaders_ok token htok]
  · unfold create_schedule_group
    rw [buildHeaders_ok token htok]

/-- Witness for C7 at a concrete non-ASCII token, which the source accepts
as a header value, and concrete requests. -/
theorem claim_c7_header_set_pure_witness :
    buildHeaders "café" =
      Except.ok
        [("AuthenticationToken", "café"),
         ("Authorization", "Bearer " ++ "café"),
         ("Accept", "application/json"),
         ("Content-Type", "application/json")] ∧
    create_location_group "u" "café"
        { description := "d", location_ids := [1] }
        (fun q => Except.error ((fun _ => "q") q)) =
      Except.error ("Failed to create location group: " ++ "q") ∧
    create_schedule_group "u" "café"
        { description := "d", location_group_id := 1, start_date := "s",
          end_date := "e", learning_period := "p" }
        (fun q => Except.error ((fun _ => "q") q)) =
      Except.error ("Failed to create schedule group: " ++ "q") :=
  ⟨(claim_c7_header_set_pure "café" (by decide)).1,
   (claim_c7_header_set_pure "café" (by decide)).2 "u"
     { description := "d", location_ids := [1] }
     { description := "d", location_group_id := 1, start_date := "s",
       end_date := "e", learning_period := "p" } (fun _ => "q")⟩

/-- C8: serializing a `LocationGroupRequest` to JSON and deserializing it
back yields the original value: description and location_ids, with order
and count, are preserved exactly. -/
theorem claim_c8_location_request_roundtrip (r : LocationGroupRequest) :
    LocationGroupRequest.fromJson (LocationGroupRequest.toJson r) = some r := by
  have hdec : ∀ l : List Int, decodeIntList (l.map Json.int) = some l := by
    intro l
    induction l with
    | nil => rfl
    | cons x xs ih => simp [decodeIntList, Json.asI64, ih]
  unfold LocationGroupRequest.fromJson LocationGroupRequest.toJson
  simp [Json.get, List.lookup, hdec]

/-- C9: each invocation issues at most one network request, exactly one
when header construction succeeds, the failure of any stage is terminal
for the single recorded request, and the instrumented translation agrees
with the plain one on the result. -/
theorem claim_c9_at_most_one_request (base_url token : String)
    (lreq : LocationGroupRequest) (sreq : ScheduleGroupRequest)
    (send : HttpRequestRec → Except String HttpResponseRec) :
    ((create_location_group_trace base_url token lreq send).1
        = create_location_group base_url token lreq send ∧
      (create_location_group_trace base_url token lreq send).2.length ≤ 1 ∧
      (∀ headers, buildHeaders token = Except.ok headers →
        (create_location_group_trace base_url token lreq send).2.length
          = 1)) ∧
    ((create_schedule_group_trace base_url token sreq send).1
        = create_schedule_group base_url token sreq send ∧
      (create_schedule_group_trace base_url token sreq send).2.length ≤ 1 ∧
      (∀ headers, buildHeaders token = Except.ok headers →
        (create_schedule_group_trace base_url token sreq send).2.length
          = 1)) := by
  constructor
  · unfold create_location_group_trace create_location_group
    cases hb : buildHeaders token with
    | error e => simp
    | ok headers =>
      cases hs : send { url := base_url ++ "/RESTApi/LocationGroup",
                        headers := headers,
                        payload := locationGroupPayload lreq } with
      | error e => simp [hs]
      | ok resp =>
        cases hst : isSuccessStatus resp.status with
        | false => simp [hs, hst]
        | true =>
          cases hj : resp.jsonResult with
          | error e => simp [hs, hst, hj]
          | ok body =>
            cases hf : (body.get "LocationGroupID").bind Json.asI64 with
            | none => simp [hs, hst, hj, hf]
            | some m => simp [hs, hst, hj, hf]
  · unfold create_schedule_group_trace create_schedule_group
    cases hb : buildHeaders token with
    | error e => simp
    | ok headers =>
      cases hs : send { url := base_url ++ "/RESTApi/ScheduleGroup",
                        headers := headers,
                        payload := scheduleGroupPayload sreq } with
      | error e => simp [hs]
      | ok resp =>
        cases hst : isSuccessStatus resp.status with
        | false => simp [hs, hst]
        | true =>
          cases hj : resp.jsonResult with
          | error e => simp [hs, hst, hj]
          | ok body =>
            cases hf : (body.get "ScheduleGroupID").bind Json.asI64 with
            | none => simp [hs, hst, hj, hf]
            | some m => simp [hs, hst, hj, hf]

/-- Witness for C9 at concrete inputs with a valid token. -/
theorem claim_c9_at_most_one_request_witness :
    (create_location_group_trace "u" "t"
        { description := "d", location_ids := [1] }
        (fun _ => Except.error "x")).2.length = 1 :=
  (claim_c9_at_most_one_request "u" "t"
    { description := "d", location_ids := [1] }
    { description := "d", location_group_id := 1, start_date := "s",
      end_date := "e", learning_period := "p" }
    (fun _ => Except.error "x")).1.2.2
    [("AuthenticationToken", "t"), ("Authorization", "Bearer " ++ "t"),
     ("Accept", "application/json"), ("Content-Type", "application/json")]
    (buildHeaders_ok "t" (by decide))

/-- C10: no non-emptiness check is performed on location_ids: with an empty
sequence the payload carries an empty `Locations` array and the operation
still hands the request to the transport, so only the remote server can
reject an empty group. -/
theorem claim_c10_empty_location_ids_sent (description token : String)
    (htok : validHeaderValue token = true) :
    locationGroupPayload { description := description, location_ids := [] } =
      Json.obj
        [("Description", Json.str description),
         ("Active", Json.bool true),
         ("Locations", Json.arr [])] ∧
    ∀ (base_url : String) (g : HttpRequestRec → String),
      create_location_group base_url token
          { description := description, location_ids := [] }
          (fun q => Except.error (g q)) =
        Except.error ("Failed to create location group: " ++
          g { url := base_url ++ "/RESTApi/LocationGroup",
              headers :=
                [("AuthenticationToken", token),
                 ("Authorization", "Bearer " ++ token),
                 ("Accept", "application/json"),
                 ("Content-Type", "application/json")],
              payload :=
                Json.obj
                  [("Description", Json.str description),
                   ("Active", Json.bool true),
                   ("Locations", Json.arr [])] }) := by
  refine ⟨rfl, ?_⟩
  intro base_url g
  unfold create_location_group
  rw [buildHeaders_ok token htok]
  rfl

/-- Witness for C10 at a concrete description and token. -/
theorem claim_c10_empty_location_ids_sent_witness :
    locationGroupPayload { description := "d", location_ids := [] } =
      Json.obj
        [("Description", Json.str "d"),
         ("Active", Json.bool true),
         ("Locations", Json.arr [])] ∧
    create_location_group "u" "t" { description := "d", location_ids := [] }
        (fun q => Except.error ((fun _ => "q") q)) =
      Except.error ("Failed to create location group: " ++ "q") :=
  ⟨(claim_c10_empty_location_ids_sent "d" "t" (by decide)).1,
   (claim_c10_empty_location_ids_sent "d" "t" (by decide)).2 "u"
     (fun _ => "q")⟩
